import Mathlib

/-!
Shallow embedding of src/indexing/indexing.py (the env-var branch of `main`
together with the shared `send_url` / `indexURL` code), with theorems about
the Submitter retry loop, the Dispatcher classification loop and tally, the
quota slicing in `main`, and the per-account orchestration loop.

Network effects are modelled by an environment function giving, for each URL
position and attempt number, either a transient disconnect
(aiohttp ServerDisconnectedError) or a response body string.  Python
exceptions escaping a piece of code are modelled by `Option.none`.
-/

namespace GoogleIndex

/-- JSON values as produced by Python `json.loads` for the response bodies this
engine consumes.  Numbers are modelled as integers (the engine only ever
compares an error `code` with 429). -/
inductive Json where
  | jnull
  | jbool (b : Bool)
  | jnum (n : Int)
  | jstr (s : String)
  | jarr (elems : List Json)
  | jobj (members : List (String × Json))

/-- Whitespace skipped by the JSON grammar. -/
def isWs (c : Char) : Bool :=
  c = ' ' || c = '\n' || c = '\t' || c = '\r'

/-- Drop leading JSON whitespace. -/
def skipWs : List Char → List Char
  | [] => []
  | c :: rest => if isWs c then skipWs rest else c :: rest

/-- Does the first list occur as the leading characters of the second? -/
def leadsWith : List Char → List Char → Bool
  | [], _ => true
  | _ :: _, [] => false
  | a :: as, b :: bs => a = b && leadsWith as bs

/-- Substring test on character lists (Python `needle in haystack` for str). -/
def hasSub (needle : List Char) : List Char → Bool
  | [] => needle.isEmpty
  | c :: rest => leadsWith needle (c :: rest) || hasSub needle rest

/-- One escape character inside a JSON string literal. -/
def escChar (c : Char) : Option Char :=
  if c = '"' then some '"'
  else if c = '\\' then some '\\'
  else if c = '/' then some '/'
  else if c = 'n' then some '\n'
  else if c = 't' then some '\t'
  else if c = 'r' then some '\r'
  else if c = 'b' then some (Char.ofNat 8)
  else if c = 'f' then some (Char.ofNat 12)
  else none

/-- Parse the body of a JSON string literal after its opening quote, returning
the decoded characters and the remaining input. -/
def parseStrAux : List Char → Option (List Char × List Char)
  | [] => none
  | '"' :: rest => some ([], rest)
  | '\\' :: rest =>
    match rest with
    | [] => none
    | e :: rest2 =>
      match escChar e with
      | none => none
      | some ec =>
        match parseStrAux rest2 with
        | none => none
        | some (cs, rem) => some (ec :: cs, rem)
  | c :: rest =>
    match parseStrAux rest with
    | none => none
    | some (cs, rem) => some (c :: cs, rem)

/-- Accumulate a run of decimal digits. -/
def parseDigitsAux : Nat → List Char → Nat × List Char
  | acc, [] => (acc, [])
  | acc, c :: rest =>
    if c.isDigit then parseDigitsAux (acc * 10 + (c.toNat - 48)) rest
    else (acc, c :: rest)

mutual

/-- Fuel-indexed recursive-descent parser for one JSON value. -/
def parseValue : Nat → List Char → Option (Json × List Char)
  | 0, _ => none
  | fuel + 1, input =>
    match skipWs input with
    | [] => none
    | c :: rest =>
      if c = '\x7b' then
        parseMembers fuel rest
      else if c = '[' then
        parseElems fuel rest
      else if c = '"' then
        match parseStrAux rest with
        | some (cs, rem) => some (Json.jstr (String.mk cs), rem)
        | none => none
      else if c = '-' then
        match rest with
        | d :: rest2 =>
          if d.isDigit then
            let p := parseDigitsAux (d.toNat - 48) rest2
            some (Json.jnum (-(Int.ofNat p.fst)), p.snd)
          else none
        | [] => none
      else if c.isDigit then
        let p := parseDigitsAux (c.toNat - 48) rest
        some (Json.jnum (Int.ofNat p.fst), p.snd)
      else if leadsWith "true".data (c :: rest) then
        some (Json.jbool true, (c :: rest).drop 4)
      else if leadsWith "false".data (c :: rest) then
        some (Json.jbool false, (c :: rest).drop 5)
      else if leadsWith "null".data (c :: rest) then
        some (Json.jnull, (c :: rest).drop 4)
      else none

/-- Parse the elements of a JSON array after its opening bracket. -/
def parseElems : Nat → List Char → Option (Json × List Char)
  | 0, _ => none
  | fuel + 1, input =>
    match skipWs input with
    | ']' :: rest => some (Json.jarr [], rest)
    | other =>
      match parseValue fuel other with
      | none => none
      | some (v, rem) => parseElemsRest fuel [v] rem

/-- Parse the remaining comma-separated elements of a JSON array. -/
def parseElemsRest : Nat → List Json → List Char → Option (Json × List Char)
  | 0, _, _ => none
  | fuel + 1, acc, input =>
    match skipWs input with
    | ']' :: rest => some (Json.jarr acc.reverse, rest)
    | ',' :: rest =>
      match parseValue fuel rest with
      | none => none
      | some (v, rem) => parseElemsRest fuel (v :: acc) rem
    | _ => none

/-- Parse one key-value member of a JSON object. -/
def parseMember : Nat → List Char → Option (String × Json × List Char)
  | 0, _ => none
  | fuel + 1, input =>
    match skipWs input with
    | '"' :: rest =>
      match parseStrAux rest with
      | none => none
      | some (cs, rem) =>
        match skipWs rem with
        | ':' :: rem2 =>
          match parseValue fuel rem2 with
          | none => none
          | some (v, rem3) => some (String.mk cs, v, rem3)
        | _ => none
    | _ => none

/-- Parse the members of a JSON object after its opening brace. -/
def parseMembers : Nat → List Char → Option (Json × List Char)
  | 0, _ => none
  | fuel + 1, input =>
    match skipWs input with
    | '\x7d' :: rest => some (Json.jobj [], rest)
    | other =>
      match parseMember fuel other with
      | none => none
      | some (k, v, rem) => parseMembersRest fuel [(k, v)] rem

/-- Parse the remaining comma-separated members of a JSON object. -/
def parseMembersRest : Nat → List (String × Json) → List Char → Option (Json × List Char)
  | 0, _, _ => none
  | fuel + 1, acc, input =>
    match skipWs input with
    | '\x7d' :: rest => some (Json.jobj acc.reverse, rest)
    | ',' :: rest =>
      match parseMember fuel rest with
      | none => none
      | some (k, v, rem) => parseMembersRest fuel ((k, v) :: acc) rem
    | _ => none

end

/-- Model of Python `json.loads`: parse a complete JSON document, requiring the
whole input to be consumed; `none` models a raised JSONDecodeError. -/
def json_loads (s : String) : Option Json :=
  match parseValue (2 * s.length + 2) s.data with
  | none => none
  | some (j, rest) => if (skipWs rest).isEmpty then some j else none

/-- Lookup in a Python dict built from JSON object members: on duplicate keys
the last occurrence wins, as in Python. -/
def pyDictGet (kvs : List (String × Json)) (k : String) : Option Json :=
  match kvs with
  | [] => none
  | (k2, v) :: rest =>
    match pyDictGet rest k with
    | some v2 => some v2
    | none => if k2 = k then some v else none

/-- Python `j == s` for a string literal s: true only for an equal string. -/
def pyEqStr (j : Json) (s : String) : Bool :=
  match j with
  | Json.jstr t => t = s
  | _ => false

/-- Python `k in data`: key membership for dicts, substring for strings,
element membership for lists; `none` models the TypeError raised on other
values. -/
def pyContains (data : Json) (k : String) : Option Bool :=
  match data with
  | Json.jobj kvs => some (pyDictGet kvs k).isSome
  | Json.jstr s => some (hasSub k.data s.data)
  | Json.jarr xs => some (xs.any fun j => pyEqStr j k)
  | _ => none

/-- Python `data[k]` for a string key: dict lookup; `none` models the KeyError
on a missing key or the TypeError on a non-dict value. -/
def pyGetItem (data : Json) (k : String) : Option Json :=
  match data with
  | Json.jobj kvs => pyDictGet kvs k
  | _ => none

/-- Python `j == n` for an integer literal n. -/
def pyEqInt (j : Json) (n : Int) : Bool :=
  match j with
  | Json.jnum m => decide (m = n)
  | _ => false

/-- The outcome of one aiohttp POST attempt inside send_url: either the
transient ServerDisconnectedError that the except clause catches, or a
response whose text is the given body. -/
inductive Attempt where
  | disconnect
  | response (body : String)
deriving DecidableEq

/-- Observable events of one send_url call: one network POST per attempt and
the fixed 2-second sleep of the except branch. -/
inductive Ev where
  | post
  | sleep2
deriving DecidableEq

/-- The literal body returned by send_url after all retries fail
(indexing.py line 35). -/
def exhaustedBody : String :=
  "\x7b\"error\": \x7b\"code\": 500, \"message\": \"Server Disconnected after multiple retries\"\x7d\x7d"

/-- The retry loop of send_url (indexing.py lines 28-35): with the given
remaining iterations of the for-range loop and current attempt number,
return the body produced together with the trace of POSTs and sleeps. -/
def sendUrlFrom (net : Nat → Attempt) : Nat → Nat → String × List Ev
  | 0, _ => (exhaustedBody, [])
  | k + 1, i =>
    match net i with
    | Attempt.response body => (body, [Ev.post])
    | Attempt.disconnect =>
      ((sendUrlFrom net k (i + 1)).fst,
        Ev.post :: Ev.sleep2 :: (sendUrlFrom net k (i + 1)).snd)

/-- send_url (indexing.py lines 23-35): up to 3 attempts starting at attempt
0; the session, token and URL only shape the network call, abstracted into
the attempt environment net. -/
def send_url (net : Nat → Attempt) : String × List Ev :=
  sendUrlFrom net 3 0

/-- A single classified outcome of the loop body at indexing.py lines 50-58. -/
inductive Outcome where
  | success
  | rateLimited
  | otherError
deriving DecidableEq

/-- The counters accumulated by indexURL (indexing.py lines 38-40, 50-58). -/
structure Counts where
  successful_urls : Nat
  error_429_count : Nat
  other_errors_count : Nat
deriving DecidableEq

/-- Classification of one parsed response body (the if-chain of indexing.py
lines 52-58); `none` models a raised TypeError or KeyError. -/
def classifyData (data : Json) : Option Outcome :=
  match pyContains data "error" with
  | none => none
  | some true =>
    match pyGetItem data "error" with
    | none => none
    | some errVal =>
      match pyGetItem errVal "code" with
      | none => none
      | some c => some (if pyEqInt c 429 then Outcome.rateLimited else Outcome.otherError)
  | some false => some Outcome.success

/-- One iteration of the classification loop (indexing.py lines 50-58):
json.loads then the if-chain; `none` models a raised exception. -/
def classifyOne (result : String) : Option Outcome :=
  match json_loads result with
  | none => none
  | some data => classifyData data

/-- The classification loop of indexURL folded over all gathered results;
`none` models an exception escaping the loop. -/
def classifyResults : List String → Option Counts
  | [] => some ⟨0, 0, 0⟩
  | r :: rest =>
    match classifyOne r, classifyResults rest with
    | some oc, some t =>
      match oc with
      | Outcome.success => some ⟨t.successful_urls + 1, t.error_429_count, t.other_errors_count⟩
      | Outcome.rateLimited => some ⟨t.successful_urls, t.error_429_count + 1, t.other_errors_count⟩
      | Outcome.otherError => some ⟨t.successful_urls, t.error_429_count, t.other_errors_count + 1⟩
    | _, _ => none

/-- The asyncio.gather step of indexURL (lines 41-48): one send_url result per
URL position; net gives the attempt environment of each URL position. -/
def gatherBodies (net : Nat → Nat → Attempt) (n : Nat) : List String :=
  (List.range n).map fun j => (send_url (net j)).fst

/-- indexURL (indexing.py lines 37-62): gather one body per URL, then run the
classification loop; the resulting counters, or `none` when an exception
escapes.  The printed total is the length of urls. -/
def indexURL (net : Nat → Nat → Attempt) (urls : List String) : Option Counts :=
  classifyResults (gatherBodies net urls.length)

/-- The per-account report printed by indexURL (indexing.py lines 60-62):
exactly three labelled values. -/
def reportPairs (urls : List String) (t : Counts) : List (String × Nat) :=
  [("Total URLs Tried", urls.length),
   ("Successful URLs", t.successful_urls),
   ("URLs with Error 429", t.error_429_count)]

/-- indexURL together with its printed report; no report is printed when the
classification loop raises. -/
def indexURL_report (net : Nat → Nat → Attempt) (urls : List String) :
    Option (List (String × Nat)) :=
  (indexURL net urls).map fun t => reportPairs urls t

/-- Module constant URLS_PER_ACCOUNT (indexing.py line 19). -/
def URLS_PER_ACCOUNT : Nat := 200

/-- Python list slicing all_urls[start:stop] for non-negative bounds. -/
def pySlice (l : List String) (start stop : Nat) : List String :=
  (l.drop start).take (stop - start)

/-- The slice main hands to account i (0-indexed), indexing.py lines 117-119:
bounds are computed from the module constant URLS_PER_ACCOUNT. -/
def urls_for_account (all_urls : List String) (i : Nat) : List String :=
  pySlice all_urls (i * URLS_PER_ACCOUNT) (i * URLS_PER_ACCOUNT + URLS_PER_ACCOUNT)

/-- Modelled from the spec: the QuotaAllocator slice of section 4.3, account i
(0-indexed) receives all_urls[i*urls_per_account : (i+1)*urls_per_account]
for the configured urls_per_account.  Used to compare the code's slicing
against the specified one. -/
def spec_slice (all_urls : List String) (i urls_per_account : Nat) : List String :=
  pySlice all_urls (i * urls_per_account) ((i + 1) * urls_per_account)

/-- The URL list built by main (indexing.py line 104): the single URL repeated
num_accounts * urls_per_account times. -/
def all_urls_of (url : String) (num_accounts urls_per_account : Nat) : List String :=
  List.replicate (num_accounts * urls_per_account) url

/-- The credential file name for loop index i (indexing.py line 110). -/
def json_key_file (i : Nat) : String :=
  "account" ++ toString (i + 1) ++ ".json"

/-- What main does for one account: a reported skip with the printed warning
(line 114), or a dispatch producing that account's counters. -/
inductive AccountStep where
  | skipped (msg : String)
  | processed (t : Counts)
deriving DecidableEq

/-- The per-account loop of main (indexing.py lines 108-122), starting at
account index i with k accounts left; ex models os.path.exists over file
names, net gives each account's network environment.  `none` models an
exception escaping an account's dispatch and aborting the run. -/
def mainLoopFrom (ex : String → Bool) (net : Nat → Nat → Nat → Attempt)
    (all_urls : List String) : Nat → Nat → Option (List AccountStep)
  | _, 0 => some []
  | i, k + 1 =>
    if ex (json_key_file i) then
      match indexURL (net i) (urls_for_account all_urls i) with
      | none => none
      | some t =>
        (mainLoopFrom ex net all_urls (i + 1) k).map
          fun steps => AccountStep.processed t :: steps
    else
      (mainLoopFrom ex net all_urls (i + 1) k).map
        fun steps =>
          AccountStep.skipped ("Error: " ++ json_key_file i ++ " not found!") :: steps

/-- main (env-var branch, indexing.py lines 89-122): build the replicated URL
list and run the per-account loop over all accounts. -/
def main_run (ex : String → Bool) (net : Nat → Nat → Nat → Attempt)
    (url : String) (num_accounts urls_per_account : Nat) : Option (List AccountStep) :=
  mainLoopFrom ex net (all_urls_of url num_accounts urls_per_account) 0 num_accounts

/-! Helper lemmas. -/

lemma send_url_disc3 (net : Nat → Attempt) (h0 : net 0 = Attempt.disconnect)
    (h1 : net 1 = Attempt.disconnect) (h2 : net 2 = Attempt.disconnect) :
    send_url net =
      (exhaustedBody, [Ev.post, Ev.sleep2, Ev.post, Ev.sleep2, Ev.post, Ev.sleep2]) := by
  simp [send_url, sendUrlFrom, h0, h1, h2]

lemma send_url_disc2_resp (net : Nat → Attempt) (b : String)
    (h0 : net 0 = Attempt.disconnect) (h1 : net 1 = Attempt.disconnect)
    (h2 : net 2 = Attempt.response b) :
    send_url net = (b, [Ev.post, Ev.sleep2, Ev.post, Ev.sleep2, Ev.post]) := by
  simp [send_url, sendUrlFrom, h0, h1, h2]

lemma send_url_resp0 (net : Nat → Attempt) (b : String)
    (h0 : net 0 = Attempt.response b) :
    send_url net = (b, [Ev.post]) := by
  simp [send_url, sendUrlFrom, h0]

lemma classifyResults_total (rs : List String) (t : Counts)
    (h : classifyResults rs = some t) :
    t.successful_urls + t.error_429_count + t.other_errors_count = rs.length := by
  induction rs generalizing t with
  | nil =>
    simp [classifyResults] at h
    subst h
    rfl
  | cons r rest ih =>
    cases hc : classifyOne r with
    | none => simp [classifyResults, hc] at h
    | some oc =>
      cases ht : classifyResults rest with
      | none => simp [classifyResults, hc, ht] at h
      | some t2 =>
        have ih2 := ih t2 ht
        cases oc <;> simp [classifyResults, hc, ht] at h <;> subst h <;> simp <;> omega

lemma classifyResults_isNone (rs : List String) (r : String) (hm : r ∈ rs)
    (hc : classifyOne r = none) : classifyResults rs = none := by
  induction rs with
  | nil => cases hm
  | cons a tl ih =>
    rcases List.mem_cons.mp hm with h | h
    · subst h
      simp [classifyResults, hc]
    · have htl := ih h
      cases hca : classifyOne a with
      | none => simp [classifyResults, hca]
      | some oc => simp [classifyResults, hca, htl]

lemma gatherBodies_length (net : Nat → Nat → Attempt) (n : Nat) :
    (gatherBodies net n).length = n := by
  simp [gatherBodies]

lemma gatherBodies_mem (net : Nat → Nat → Attempt) (n j : Nat) (h : j < n) :
    (send_url (net j)).fst ∈ gatherBodies net n := by
  simp only [gatherBodies, List.mem_map]
  exact ⟨j, List.mem_range.mpr h, rfl⟩

/-! Concrete response bodies used by the witnesses. -/

/-- A response body with no error object. -/
def okBody : String := "\x7b\x7d"

/-- A rate-limit response body. -/
def body429 : String := "\x7b\"error\": \x7b\"code\": 429\x7d\x7d"

/-- A non-429 remote error response body. -/
def body503 : String := "\x7b\"error\": \x7b\"code\": 503, \"message\": \"Quota exceeded\"\x7d\x7d"

/-! Claims. -/

/-- Claim C1: in the classification loop of indexURL, a parsed response body
whose error object carries code 429 is counted as rate limited, one whose
error object carries any other code is counted as an other error, and a body
with no error key is counted as a success. -/
theorem claim_C1 (r : String) (kvs : List (String × Json))
    (hp : json_loads r = some (Json.jobj kvs)) :
    (∀ ekvs c, pyDictGet kvs "error" = some (Json.jobj ekvs) →
      pyDictGet ekvs "code" = some (Json.jnum c) →
      classifyOne r = some (if c = 429 then Outcome.rateLimited else Outcome.otherError))
    ∧ (pyDictGet kvs "error" = none → classifyOne r = some Outcome.success) := by
  constructor
  · intro ekvs c he hc
    simp [classifyOne, hp, classifyData, pyContains, pyGetItem, he, hc, pyEqInt]
  · intro he
    simp [classifyOne, hp, classifyData, pyContains, he]

/-- Witness for C1 at the three concrete bodies named in the spec. -/
theorem claim_C1_witness :
    classifyOne body429 = some Outcome.rateLimited ∧
    classifyOne body503 = some Outcome.otherError ∧
    classifyOne okBody = some Outcome.success := by
  refine ⟨?_, ?_, ?_⟩
  · have h := (claim_C1 body429 [("error", Json.jobj [("code", Json.jnum 429)])] rfl).1
      [("code", Json.jnum 429)] 429 rfl rfl
    simpa using h
  · have h := (claim_C1 body503
      [("error", Json.jobj [("code", Json.jnum 503), ("message", Json.jstr "Quota exceeded")])] rfl).1
      [("code", Json.jnum 503), ("message", Json.jstr "Quota exceeded")] 503 rfl rfl
    simpa using h
  · exact (claim_C1 okBody [] rfl).2 rfl

/-- Claim C2: whenever a dispatch completes with a tally, the printed total
(the number of URLs in the slice) equals successful + rate limited + other
errors, and exactly one gathered result exists per submitted URL. -/
theorem claim_C2 (net : Nat → Nat → Attempt) (urls : List String) (t : Counts)
    (h : indexURL net urls = some t) :
    t.successful_urls + t.error_429_count + t.other_errors_count = urls.length ∧
    (gatherBodies net urls.length).length = urls.length := by
  refine ⟨?_, gatherBodies_length net urls.length⟩
  have h2 := classifyResults_total _ t h
  simpa [gatherBodies_length] using h2

/-- The all-success network environment used by witnesses. -/
def netOk : Nat → Nat → Attempt := fun _ _ => Attempt.response okBody

/-- Witness for C2 on a one-URL batch that succeeds. -/
theorem claim_C2_witness :
    (Counts.mk 1 0 0).successful_urls + (Counts.mk 1 0 0).error_429_count +
      (Counts.mk 1 0 0).other_errors_count = (["u"] : List String).length ∧
    (gatherBodies netOk (["u"] : List String).length).length =
      (["u"] : List String).length :=
  claim_C2 netOk ["u"] ⟨1, 0, 0⟩ rfl

/-- Claim C4: three consecutive transient disconnects make send_url return the
synthesized 500-class body instead of raising; that body is classified as an
other error, so the batch's tally counts it and the batch completes. -/
theorem claim_C4 (net : Nat → Attempt) (h : ∀ k, k < 3 → net k = Attempt.disconnect) :
    (send_url net).fst = exhaustedBody ∧
    classifyOne exhaustedBody = some Outcome.otherError ∧
    ∀ u : String, indexURL (fun _ => net) [u] = some ⟨0, 0, 1⟩ := by
  have hs := send_url_disc3 net (h 0 (by omega)) (h 1 (by omega)) (h 2 (by omega))
  refine ⟨by rw [hs], rfl, fun u => ?_⟩
  have hg : gatherBodies (fun _ => net) ([u] : List String).length = [exhaustedBody] := by
    simp [gatherBodies, hs]
  rw [indexURL, hg]
  rfl

/-- The all-disconnect attempt environment. -/
def discNet : Nat → Attempt := fun _ => Attempt.disconnect

/-- Witness for C4 on the all-disconnect environment. -/
theorem claim_C4_witness :
    (send_url discNet).fst = exhaustedBody ∧
    indexURL (fun _ => discNet) ["u"] = some ⟨0, 0, 1⟩ := by
  have h := claim_C4 discNet (fun _ _ => rfl)
  exact ⟨h.1, h.2.2 "u"⟩

/-- Claim C5: two transient disconnects followed by a response make send_url
return that response's body after exactly three POSTs; a first-attempt
response is returned after a single POST (so only disconnects retry and the
budget of 3 attempts is never exceeded); a returned body with no error object
classifies as a success. -/
theorem claim_C5 (net : Nat → Attempt) (b : String) (kvs : List (String × Json)) :
    (net 0 = Attempt.disconnect → net 1 = Attempt.disconnect →
      net 2 = Attempt.response b →
      send_url net = (b, [Ev.post, Ev.sleep2, Ev.post, Ev.sleep2, Ev.post])) ∧
    (net 0 = Attempt.response b → send_url net = (b, [Ev.post])) ∧
    (json_loads b = some (Json.jobj kvs) → pyDictGet kvs "error" = none →
      classifyOne b = some Outcome.success) := by
  refine ⟨fun h0 h1 h2 => send_url_disc2_resp net b h0 h1 h2,
    fun h0 => send_url_resp0 net b h0, fun hp he => ?_⟩
  simp [classifyOne, hp, classifyData, pyContains, he]

/-- Environment with exactly two leading disconnects. -/
def netC5 : Nat → Attempt :=
  fun i => if i < 2 then Attempt.disconnect else Attempt.response okBody

/-- Environment answering on the first attempt. -/
def netRespOk : Nat → Attempt := fun _ => Attempt.response okBody

/-- Witness for C5 on the two concrete environments. -/
theorem claim_C5_witness :
    send_url netC5 = (okBody, [Ev.post, Ev.sleep2, Ev.post, Ev.sleep2, Ev.post]) ∧
    send_url netRespOk = (okBody, [Ev.post]) ∧
    classifyOne okBody = some Outcome.success := by
  have h := claim_C5 netC5 okBody []
  have h2 := claim_C5 netRespOk okBody []
  exact ⟨h.1 rfl rfl rfl, h2.2.1 rfl, h.2.2 rfl rfl⟩

/-- Claim C9: the classification unconditionally reads the code field of a
present error object: without a code key the lookup raises (no counted
outcome), and with one it always produces a counted outcome. -/
theorem claim_C9 (kvs ekvs : List (String × Json))
    (he : pyDictGet kvs "error" = some (Json.jobj ekvs)) :
    (pyDictGet ekvs "code" = none → classifyData (Json.jobj kvs) = none) ∧
    (∀ c, pyDictGet ekvs "code" = some c →
      classifyData (Json.jobj kvs) =
        some (if pyEqInt c 429 then Outcome.rateLimited else Outcome.otherError)) := by
  constructor
  · intro hc
    simp [classifyData, pyContains, pyGetItem, he, hc]
  · intro c hc
    simp [classifyData, pyContains, pyGetItem, he, hc]

/-- Witness for C9: an error object without a code raises, one with code 503
counts as an other error. -/
theorem claim_C9_witness :
    classifyData (Json.jobj [("error", Json.jobj [("message", Json.jstr "x")])]) = none ∧
    classifyData (Json.jobj [("error", Json.jobj [("code", Json.jnum 503)])]) =
      some Outcome.otherError := by
  refine ⟨(claim_C9 [("error", Json.jobj [("message", Json.jstr "x")])]
    [("message", Json.jstr "x")] rfl).1 rfl, ?_⟩
  have h := (claim_C9 [("error", Json.jobj [("code", Json.jnum 503)])]
    [("code", Json.jnum 503)] rfl).2 (Json.jnum 503) rfl
  simpa [pyEqInt] using h

/-- Claim C10: with three consecutive disconnects the 2-second sleep runs
after every failed attempt, including the last: the synthesized body is
returned only after exactly three sleep intervals. -/
theorem claim_C10 (net : Nat → Attempt) (h : ∀ k, k < 3 → net k = Attempt.disconnect) :
    (send_url net).snd =
      [Ev.post, Ev.sleep2, Ev.post, Ev.sleep2, Ev.post, Ev.sleep2] ∧
    ((send_url net).snd).count Ev.sleep2 = 3 := by
  have hs := send_url_disc3 net (h 0 (by omega)) (h 1 (by omega)) (h 2 (by omega))
  rw [hs]
  exact ⟨rfl, by decide⟩

/-- Witness for C10 on the all-disconnect environment. -/
theorem claim_C10_witness :
    (send_url discNet).snd =
      [Ev.post, Ev.sleep2, Ev.post, Ev.sleep2, Ev.post, Ev.sleep2] ∧
    ((send_url discNet).snd).count Ev.sleep2 = 3 :=
  claim_C10 discNet (fun _ _ => rfl)

/-- Counterexample to C6 as stated: a malformed response body is not recorded
as an OtherError with a parse-failure marker; json.loads raises, the
classification loop produces no outcome, and the exception escapes indexURL,
so the dispatch yields no tally at all. -/
theorem claim_C6_counterexample :
    json_loads "not json" = none ∧
    classifyOne "not json" = none ∧
    indexURL (fun _ _ => Attempt.response "not json") ["u"] = none :=
  ⟨rfl, rfl, rfl⟩

/-- Claim C6 amended: a submission whose response body is malformed makes the
classification loop raise; the exception escapes indexURL and aborts the
batch without producing a tally, instead of being recorded as an OtherError
outcome. -/
theorem claim_C6_amended (net : Nat → Nat → Attempt) (urls : List String)
    (j : Nat) (hj : j < urls.length)
    (hb : json_loads ((send_url (net j)).fst) = none) :
    indexURL net urls = none := by
  have hmem := gatherBodies_mem net urls.length j hj
  have hone : classifyOne ((send_url (net j)).fst) = none := by
    simp [classifyOne, hb]
  exact classifyResults_isNone _ _ hmem hone

/-- Network environment always answering with a malformed body. -/
def netBad : Nat → Nat → Attempt := fun _ _ => Attempt.response "not json"

/-- Witness for the amended C6 on a two-URL batch. -/
theorem claim_C6_witness : indexURL netBad ["u", "v"] = none :=
  claim_C6_amended netBad ["u", "v"] 0 (by decide) rfl

/-- Network environment for the C8 counterexample: URL 0 succeeds, URLs 1-2
are rate limited, URLs 3-5 hit a 503. -/
def netC8 : Nat → Nat → Attempt :=
  fun j _ => Attempt.response (if j = 0 then okBody else if j < 3 then body429 else body503)

/-- Counterexample to C8 as stated: on this six-URL batch the internal counts
are (successful, rate limited, other errors) = (1, 2, 3), but the printed
per-account report has exactly three entries and the other-errors count 3
appears in none of them. -/
theorem claim_C8_counterexample :
    indexURL netC8 (List.replicate 6 "u") = some ⟨1, 2, 3⟩ ∧
    indexURL_report netC8 (List.replicate 6 "u") =
      some [("Total URLs Tried", 6), ("Successful URLs", 1), ("URLs with Error 429", 2)] ∧
    ((indexURL_report netC8 (List.replicate 6 "u")).getD []).all
      (fun p => p.snd != 3) = true :=
  ⟨rfl, rfl, rfl⟩

/-- Claim C8 amended: the per-account report contains exactly the total, the
successful count and the rate-limited count; the other-errors count is
tallied internally but omitted from the report (it remains recoverable as
the total minus the two reported counts). -/
theorem claim_C8_amended (net : Nat → Nat → Attempt) (urls : List String)
    (t : Counts) (h : indexURL net urls = some t) :
    indexURL_report net urls =
      some [("Total URLs Tried", urls.length),
            ("Successful URLs", t.successful_urls),
            ("URLs with Error 429", t.error_429_count)] ∧
    urls.length = t.successful_urls + t.error_429_count + t.other_errors_count := by
  constructor
  · simp [indexURL_report, h, reportPairs]
  · have h2 := classifyResults_total _ t h
    simpa [gatherBodies_length] using h2.symm

/-- Witness for the amended C8 on a one-URL batch. -/
theorem claim_C8_witness :
    indexURL_report netOk ["u"] =
      some [("Total URLs Tried", 1), ("Successful URLs", 1), ("URLs with Error 429", 0)] ∧
    (["u"] : List String).length = 1 + 0 + 0 := by
  have h := claim_C8_amended netOk ["u"] ⟨1, 0, 0⟩ rfl
  simpa using h

/-- Claim C3, code evaluation at the failing configuration: with a configured
quota of 50 URLs per account and 2 accounts (100 generated URLs), main's
slicing uses the module constant URLS_PER_ACCOUNT = 200, handing account 1
all 100 URLs and account 2 none, while the specified allocator hands each
account 50; with the default quota 200 and 250 URLs the slices required by
the spec scenario (200 then 50 URLs, second tally total 50) are reproduced. -/
theorem claim_C3_code_eval :
    urls_for_account (all_urls_of "u" 2 50) 0 = List.replicate 100 "u" ∧
    urls_for_account (all_urls_of "u" 2 50) 1 = [] ∧
    spec_slice (all_urls_of "u" 2 50) 0 50 = List.replicate 50 "u" ∧
    spec_slice (all_urls_of "u" 2 50) 1 50 = List.replicate 50 "u" ∧
    urls_for_account (all_urls_of "u" 2 50) 0 ≠ spec_slice (all_urls_of "u" 2 50) 0 50 ∧
    urls_for_account (List.replicate 250 "u") 0 = List.replicate 200 "u" ∧
    urls_for_account (List.replicate 250 "u") 1 = List.replicate 50 "u" ∧
    indexURL netOk (urls_for_account (List.replicate 250 "u") 1) = some ⟨50, 0, 0⟩ :=
  ⟨rfl, rfl, rfl, rfl, by decide, rfl, rfl, rfl⟩

lemma mainLoopFrom_spec (ex : String → Bool) (net : Nat → Nat → Nat → Attempt)
    (all_urls : List String) :
    ∀ (k i : Nat) (steps : List AccountStep),
      mainLoopFrom ex net all_urls i k = some steps →
      steps.length = k ∧
      ∀ m, m < k →
        (ex (json_key_file (i + m)) = false →
          steps[m]? = some (AccountStep.skipped
            ("Error: " ++ json_key_file (i + m) ++ " not found!"))) ∧
        (ex (json_key_file (i + m)) = true →
          ∃ t, indexURL (net (i + m)) (urls_for_account all_urls (i + m)) = some t ∧
            steps[m]? = some (AccountStep.processed t)) := by
  intro k
  induction k with
  | zero =>
    intro i steps h
    simp only [mainLoopFrom, Option.some.injEq] at h
    subst h
    exact ⟨rfl, fun m hm => absurd hm (by omega)⟩
  | succ k ih =>
    intro i steps h
    simp only [mainLoopFrom] at h
    by_cases hex : ex (json_key_file i) = true
    · rw [if_pos hex] at h
      cases hidx : indexURL (net i) (urls_for_account all_urls i) with
      | none => rw [hidx] at h; cases h
      | some t =>
        rw [hidx] at h
        rcases Option.map_eq_some'.mp h with ⟨steps2, h2, hsteps⟩
        subst hsteps
        obtain ⟨hlen, hspec⟩ := ih (i + 1) steps2 h2
        refine ⟨by simp [hlen], fun m hm => ?_⟩
        cases m with
        | zero =>
          constructor
          · intro hf
            simp only [Nat.add_zero] at hf
            simp [hex] at hf
          · intro _
            exact ⟨t, by simpa using hidx, by simp⟩
        | succ m =>
          have harith : i + (m + 1) = (i + 1) + m := by omega
          rw [harith]
          have hrec := hspec m (by omega)
          simpa [List.getElem?_cons_succ] using hrec
    · rw [if_neg hex] at h
      rcases Option.map_eq_some'.mp h with ⟨steps2, h2, hsteps⟩
      subst hsteps
      obtain ⟨hlen, hspec⟩ := ih (i + 1) steps2 h2
      refine ⟨by simp [hlen], fun m hm => ?_⟩
      cases m with
      | zero =>
        constructor
        · intro _
          simp
        · intro ht
          exact absurd (by simpa using ht) hex
      | succ m =>
        have harith : i + (m + 1) = (i + 1) + m := by omega
        rw [harith]
        have hrec := hspec m (by omega)
        simpa [List.getElem?_cons_succ] using hrec

/-- Claim C7: in a completed run, every account whose credential file is
missing is skipped with the printed warning, and every account whose file
exists is still dispatched and produces a tally, independently of which other
accounts are missing. -/
theorem claim_C7 (ex : String → Bool) (net : Nat → Nat → Nat → Attempt)
    (all_urls : List String) (n : Nat) (steps : List AccountStep)
    (h : mainLoopFrom ex net all_urls 0 n = some steps) :
    steps.length = n ∧
    ∀ m, m < n →
      (ex (json_key_file m) = false →
        steps[m]? = some (AccountStep.skipped
          ("Error: " ++ json_key_file m ++ " not found!"))) ∧
      (ex (json_key_file m) = true →
        ∃ t, indexURL (net m) (urls_for_account all_urls m) = some t ∧
          steps[m]? = some (AccountStep.processed t)) := by
  have h2 := mainLoopFrom_spec ex net all_urls n 0 steps h
  simpa using h2

/-- Existence test for the C7 witness: only account2.json is missing. -/
def exW : String → Bool := fun s => s != "account2.json"

/-- The steps of the C7 witness run. -/
def steps3 : List AccountStep :=
  [AccountStep.processed ⟨5, 0, 0⟩,
   AccountStep.skipped "Error: account2.json not found!",
   AccountStep.processed ⟨0, 0, 0⟩]

/-- Witness for C7: with account 2 of 3 missing, accounts 1 and 3 still
produce tallies and account 2 is reported as skipped. -/
theorem claim_C7_witness :
    steps3.length = 3 ∧
    steps3[1]? = some (AccountStep.skipped
      ("Error: " ++ json_key_file 1 ++ " not found!")) ∧
    steps3[0]? = some (AccountStep.processed ⟨5, 0, 0⟩) ∧
    steps3[2]? = some (AccountStep.processed ⟨0, 0, 0⟩) := by
  have h := claim_C7 exW (fun _ => netOk) (List.replicate 5 "u") 3 steps3 rfl
  exact ⟨h.1, (h.2 1 (by omega)).1 rfl, rfl, rfl⟩

end GoogleIndex
